import Mathlib

/-!
Shallow embedding of `src/internals/station/websockets/SocketTransport.ts`.

The transport owns an active socket (`_socket`), a pending socket
(`_nextSocket`), an outbound queue (`_queue`), a live subscription list
(`_subscriptions`) and the constructor options (`opts`).  We model the
transport's fields as a record `TransportState` and each private method as a
pure state transformer translated statement by statement from the source.
`this._socket.send(JSON.stringify(m))` is recorded by appending `m` to the
`transmitted` trace (JSON.stringify is injective on these records, so the
envelope itself is the faithful observation of the wire message);
dispatching a parsed inbound message to the registered "message" callbacks is
recorded by appending it to the `dispatched` trace.  `setTimeout(
this._socketCreate, 500)` is modelled by incrementing a counter of scheduled
retry timers, consumed by an explicit timer-fire event.  JavaScript values
reaching the argument validations (`!topic`, `typeof topic !== "string"`,
`!opts.url`) are modelled by a small dynamic-value type `JSVal` with the
JavaScript truthiness rules.
-/

namespace SocketTransport

/-- A JavaScript runtime value as far as the transport's argument checks
observe it: the checks use truthiness (`!x`) and `typeof x !== "string"`. -/
inductive JSVal where
  | undefined
  | null
  | str (s : String)
  | num (n : Int)
  | boolean (b : Bool)
  deriving DecidableEq, Repr

/-- JavaScript truthiness: `undefined`, `null`, `""`, `0` and `false` are
falsy, everything else is truthy. -/
def truthy : JSVal → Bool
  | .undefined => false
  | .null => false
  | .str s => s != ""
  | .num n => n != 0
  | .boolean b => b

/-- `typeof v === "string"`. -/
def isString : JSVal → Bool
  | .str _ => true
  | _ => false

/-- `ISocketMessage`: the envelope `{ topic, type, payload, silent }`. -/
structure SocketMessage where
  topic : JSVal
  type : String
  payload : String
  silent : Bool
  deriving DecidableEq, Repr

/-- The `onclose` handler installed on a socket object.  `_socketCreate`
installs the retry closure `() => { this._nextSocket = null;
setTimeout(this._socketCreate, 500); }`; `_socketClose` replaces the active
socket's handler with the empty closure `() => {}`. -/
inductive CloseHandler where
  | retry
  | noop
  deriving DecidableEq, Repr

/-- A WebSocket object as the transport observes it: its `readyState`
(0 CONNECTING, 1 OPEN, 2 CLOSING, 3 CLOSED) and its current `onclose`
handler. -/
structure Socket where
  readyState : Nat
  onclose : CloseHandler
  deriving DecidableEq, Repr

/-- The mutable fields of a `SocketTransport` instance, plus the two
observation traces and the count of scheduled `setTimeout(this._socketCreate,
500)` timers. -/
structure TransportState where
  socket : Option Socket
  nextSocket : Option Socket
  queue : List SocketMessage
  subscriptions : List String
  optsSubscriptions : Option (List String)
  transmitted : List SocketMessage
  dispatched : List SocketMessage
  pendingRetries : Nat
  deriving DecidableEq, Repr

/-- `this._socket && this._socket.readyState === 1`. -/
def isOpen (s : TransportState) : Bool :=
  match s.socket with
  | some sock => sock.readyState == 1
  | none => false

/-- The socket object `new WebSocket(url)` with the handlers `_socketCreate`
installs on it: freshly constructed (`readyState` 0, CONNECTING) and with the
retry `onclose` closure.  The URL computed by `getWebSocketUrl` is not
modelled: no observed behaviour of the transport depends on it. -/
def pendingSocket : Socket :=
  { readyState := 0, onclose := .retry }

/-- `_socketCreate`: return at once if a pending connection already exists,
otherwise store a freshly created socket in `_nextSocket`. -/
def socketCreate (s : TransportState) : TransportState :=
  match s.nextSocket with
  | some _ => s
  | none => { s with nextSocket := some pendingSocket }

/-- `_setToQueue`: `this._queue.push(socketMessage)`. -/
def setToQueue (s : TransportState) (m : SocketMessage) : TransportState :=
  { s with queue := s.queue ++ [m] }

/-- `_socketSend`: serialize the envelope; if the active connection is open,
transmit it, otherwise push it onto the queue and call `_socketCreate`. -/
def socketSend (s : TransportState) (m : SocketMessage) : TransportState :=
  if isOpen s then
    { s with transmitted := s.transmitted ++ [m] }
  else
    socketCreate (setToQueue s m)

/-- `_socketClose`: if an active socket exists, replace its `onclose` with
the empty handler and close it (`readyState` becomes 3, CLOSED; the field
`_socket` keeps pointing at the closed socket). -/
def socketClose (s : TransportState) : TransportState :=
  match s.socket with
  | none => s
  | some sock =>
      { s with socket := some { sock with onclose := .noop, readyState := 3 } }

/-- The subscribe envelope `_queueSubscriptions` builds for a topic. -/
def subEnvelope (t : String) : SocketMessage :=
  { topic := .str t, type := "sub", payload := "", silent := true }

/-- `_queueSubscriptions`: push one subscribe envelope per topic of the live
subscription list onto the queue, in list order, then reset the live list to
`this.opts.subscriptions || []`. -/
def queueSubscriptions (s : TransportState) : TransportState :=
  let s1 := s.subscriptions.foldl (fun st t => setToQueue st (subEnvelope t)) s
  { s1 with subscriptions := s1.optsSubscriptions.getD [] }

/-- `_pushQueue`:
`const queue = this._queue;` aliases (does not copy) the live array;
`queue.forEach(m => this._socketSend(m));` visits exactly the elements
present when the loop starts (elements appended during the loop are not
visited, per the `Array.prototype.forEach` range rule), while each
`_socketSend` on a non-open connection pushes onto that same array;
`this._queue = [];` finally replaces the field with a fresh empty array.
We iterate over the initial list while threading the state (whose `queue`
receives the re-enqueues), then overwrite the queue with `[]`. -/
def pushQueue (s : TransportState) : TransportState :=
  let snapshot := s.queue
  let s1 := snapshot.foldl socketSend s
  { s1 with queue := [] }

/-- `_socketOpen` (the pending socket's `onopen` handler): close the previous
active socket silently, promote pending to active, clear pending, replay
subscriptions, drain the queue — in that order. -/
def socketOpen (s : TransportState) : TransportState :=
  let s1 := socketClose s
  let s2 := { s1 with socket := s1.nextSocket, nextSocket := none }
  pushQueue (queueSubscriptions s2)

/-- `_socketReceive`: `JSON.parse(event.data)` either fails (modelled as
`none`: the handler returns with no effect) or yields an envelope; on
success, route one acknowledge envelope for the same topic through
`_socketSend`, then, if the active connection is open, dispatch the parsed
envelope to the registered "message" callbacks. -/
def socketReceive (s : TransportState) (parsed : Option SocketMessage) :
    TransportState :=
  match parsed with
  | none => s
  | some msg =>
      let s1 := socketSend s
        { topic := msg.topic, type := "ack", payload := "", silent := true }
      if isOpen s1 then { s1 with dispatched := s1.dispatched ++ [msg] } else s1

/-- Public `send(message, topic?, silent?)`: throw on a falsy or non-string
topic, otherwise route a publish envelope through `_socketSend`.  An omitted
argument is `undefined`; the thrown error is the `Except.error` case. -/
def send (s : TransportState) (message : String) (topic : JSVal)
    (silent : Option Bool) : Except String TransportState :=
  if !truthy topic || !isString topic then
    .error "Missing or invalid topic field"
  else
    .ok (socketSend s
      { topic := topic, type := "pub", payload := message,
        silent := silent.getD false })

/-- Public `subscribe(topic)`: no validation at all — the body immediately
routes a subscribe envelope through `_socketSend`.  It is given the same
`Except` surface as `send` to make "never throws" a stated fact rather than
a typing accident. -/
def subscribe (s : TransportState) (topic : JSVal) :
    Except String TransportState :=
  .ok (socketSend s
    { topic := topic, type := "sub", payload := "", silent := true })

/-- `ISocketTransportOptions` as the constructor consumes it. -/
structure SocketTransportOptions where
  protocol : String
  version : Nat
  url : JSVal
  subscriptions : Option (List String)
  deriving DecidableEq, Repr

/-- The field state the constructor leaves behind when it does not throw. -/
def initState (opts : SocketTransportOptions) : TransportState :=
  { socket := none
    nextSocket := none
    queue := []
    subscriptions := opts.subscriptions.getD []
    optsSubscriptions := opts.subscriptions
    transmitted := []
    dispatched := []
    pendingRetries := 0 }

/-- The constructor: initialize the fields, then throw
`"Missing or invalid WebSocket url"` when `!opts.url || typeof opts.url !==
"string"` (a throw from a constructor yields no usable object, so the
`Except.error` case carries no state).  It also registers
`netMonitor.on("online", () => this._socketCreate())`, modelled by the
`netOnline` event below. -/
def mkTransport (opts : SocketTransportOptions) :
    Except String TransportState :=
  if !truthy opts.url || !isString opts.url then
    .error "Missing or invalid WebSocket url"
  else
    .ok (initState opts)

/-- The events that drive a transport instance: the public API calls, the
network monitor's "online" callback, the socket callbacks (`onopen`,
`onclose` of the pending and of the active socket, `onmessage`), and the
firing of a scheduled retry timer. -/
inductive Event where
  | callOpen
  | callClose
  | callSend (message : String) (topic : JSVal) (silent : Option Bool)
  | callSubscribe (topic : JSVal)
  | netOnline
  | pendingOpen
  | pendingClose
  | activeClose
  | retryFire
  | receive (parsed : Option SocketMessage)

/-- One event step.  `none` means the event cannot fire in this state (no
such socket, socket not open, no timer scheduled).  A `send` that throws
propagates to the caller and leaves the transport unchanged (the throw is
the method's first statement).  `pendingOpen` fires when the pending
socket's connection succeeds: its `readyState` becomes 1 and `_socketOpen`
runs.  `pendingClose` and `activeClose` fire the socket's current `onclose`
handler: the retry closure clears `_nextSocket` and schedules a
`_socketCreate` timer; the empty closure does nothing.  `receive` fires
`onmessage`, which only a socket with an established connection delivers. -/
def step (s : TransportState) : Event → Option TransportState
  | .callOpen => some (socketCreate s)
  | .callClose => some (socketClose s)
  | .callSend message topic silent =>
      match send s message topic silent with
      | .ok s2 => some s2
      | .error _ => some s
  | .callSubscribe topic =>
      match subscribe s topic with
      | .ok s2 => some s2
      | .error _ => some s
  | .netOnline => some (socketCreate s)
  | .pendingOpen =>
      match s.nextSocket with
      | some p =>
          some (socketOpen { s with nextSocket := some { p with readyState := 1 } })
      | none => none
  | .pendingClose =>
      match s.nextSocket with
      | some _ =>
          some { s with nextSocket := none, pendingRetries := s.pendingRetries + 1 }
      | none => none
  | .activeClose =>
      match s.socket with
      | some sock =>
          match sock.onclose with
          | .noop => some { s with socket := some { sock with readyState := 3 } }
          | .retry =>
              some { s with socket := some { sock with readyState := 3 },
                            nextSocket := none,
                            pendingRetries := s.pendingRetries + 1 }
      | none => none
  | .retryFire =>
      match s.pendingRetries with
      | 0 => none
      | n + 1 => some (socketCreate { s with pendingRetries := n })
  | .receive parsed =>
      match s.socket with
      | some sock =>
          if sock.readyState == 1 then some (socketReceive s parsed) else none
      | none => none

/-- Run a list of events from a state; `none` if some event cannot fire. -/
def runTrace (s : TransportState) : List Event → Option TransportState
  | [] => some s
  | e :: es =>
      match step s e with
      | some s2 => runTrace s2 es
      | none => none

/-- Number of pending connection handles held by the transport. -/
def pendingCount (s : TransportState) : Nat :=
  match s.nextSocket with
  | some _ => 1
  | none => 0

/-- The events the transport generates by itself once the caller is passive:
socket callbacks and timer firings, as opposed to public API calls and the
network monitor's callback. -/
def IsAutoEvent : Event → Prop
  | .pendingOpen => True
  | .pendingClose => True
  | .activeClose => True
  | .retryFire => True
  | .receive _ => True
  | _ => False

/-! ### Characterization lemmas for the private methods -/

lemma socketCreate_eq (s : TransportState) :
    socketCreate s = { s with nextSocket := some (s.nextSocket.getD pendingSocket) } := by
  cases s with
  | mk so ns q su os tr di pr => cases ns <;> rfl

lemma socketSend_eq (s : TransportState) (m : SocketMessage) :
    socketSend s m =
      if isOpen s then { s with transmitted := s.transmitted ++ [m] }
      else { s with
              queue := s.queue ++ [m],
              nextSocket := some (s.nextSocket.getD pendingSocket) } := by
  simp only [socketSend, setToQueue, socketCreate_eq]

lemma socketSend_socket (s : TransportState) (m : SocketMessage) :
    (socketSend s m).socket = s.socket := by
  rw [socketSend_eq]; split <;> rfl

lemma isOpen_socketSend (s : TransportState) (m : SocketMessage) :
    isOpen (socketSend s m) = isOpen s := by
  unfold isOpen; rw [socketSend_socket]

lemma socketSend_transmitted (s : TransportState) (m : SocketMessage) :
    (socketSend s m).transmitted
      = s.transmitted ++ (if isOpen s then [m] else []) := by
  rw [socketSend_eq]; split <;> simp

lemma socketSend_queue (s : TransportState) (m : SocketMessage) :
    (socketSend s m).queue = s.queue ++ (if isOpen s then [] else [m]) := by
  rw [socketSend_eq]; split <;> simp

lemma socketSend_nextSocket (s : TransportState) (m : SocketMessage) :
    (socketSend s m).nextSocket
      = if isOpen s then s.nextSocket
        else some (s.nextSocket.getD pendingSocket) := by
  rw [socketSend_eq]; split <;> rfl

lemma socketSend_dispatched (s : TransportState) (m : SocketMessage) :
    (socketSend s m).dispatched = s.dispatched := by
  rw [socketSend_eq]; split <;> rfl

lemma socketSend_subscriptions (s : TransportState) (m : SocketMessage) :
    (socketSend s m).subscriptions = s.subscriptions := by
  rw [socketSend_eq]; split <;> rfl

lemma socketSend_optsSubscriptions (s : TransportState) (m : SocketMessage) :
    (socketSend s m).optsSubscriptions = s.optsSubscriptions := by
  rw [socketSend_eq]; split <;> rfl

lemma socketSend_pendingRetries (s : TransportState) (m : SocketMessage) :
    (socketSend s m).pendingRetries = s.pendingRetries := by
  rw [socketSend_eq]; split <;> rfl

lemma foldl_socketSend_open (l : List SocketMessage) :
    ∀ s : TransportState, isOpen s = true →
      l.foldl socketSend s = { s with transmitted := s.transmitted ++ l } := by
  induction l with
  | nil => intro s h; simp
  | cons m l ih =>
      intro s h
      rw [List.foldl_cons, ih (socketSend s m) (by rw [isOpen_socketSend]; exact h),
        socketSend_eq]
      simp [h]

lemma foldl_socketSend_closed (l : List SocketMessage) :
    ∀ s : TransportState, isOpen s = false →
      l.foldl socketSend s
        = { s with
              queue := s.queue ++ l,
              nextSocket := if l.isEmpty then s.nextSocket
                else some (s.nextSocket.getD pendingSocket) } := by
  induction l with
  | nil => intro s h; simp
  | cons m l ih =>
      intro s h
      rw [List.foldl_cons, ih (socketSend s m) (by rw [isOpen_socketSend]; exact h),
        socketSend_eq]
      simp [h]

lemma pushQueue_eq (s : TransportState) :
    pushQueue s =
      if isOpen s then { s with transmitted := s.transmitted ++ s.queue, queue := [] }
      else { s with
              queue := [],
              nextSocket := if s.queue.isEmpty then s.nextSocket
                else some (s.nextSocket.getD pendingSocket) } := by
  cases h : isOpen s
  · simp [pushQueue, foldl_socketSend_closed s.queue s h, h]
  · simp [pushQueue, foldl_socketSend_open s.queue s h, h]

lemma foldl_setToQueue (l : List String) :
    ∀ s : TransportState,
      l.foldl (fun st t => setToQueue st (subEnvelope t)) s
        = { s with queue := s.queue ++ l.map subEnvelope } := by
  induction l with
  | nil => intro s; simp
  | cons t l ih => intro s; rw [List.foldl_cons, ih]; simp [setToQueue]

lemma queueSubscriptions_eq (s : TransportState) :
    queueSubscriptions s
      = { s with
            queue := s.queue ++ s.subscriptions.map subEnvelope,
            subscriptions := s.optsSubscriptions.getD [] } := by
  simp [queueSubscriptions, foldl_setToQueue]

lemma socketClose_nextSocket (s : TransportState) :
    (socketClose s).nextSocket = s.nextSocket := by
  unfold socketClose; cases s.socket <;> rfl

lemma socketClose_queue (s : TransportState) :
    (socketClose s).queue = s.queue := by
  unfold socketClose; cases s.socket <;> rfl

lemma socketClose_subscriptions (s : TransportState) :
    (socketClose s).subscriptions = s.subscriptions := by
  unfold socketClose; cases s.socket <;> rfl

lemma socketClose_optsSubscriptions (s : TransportState) :
    (socketClose s).optsSubscriptions = s.optsSubscriptions := by
  unfold socketClose; cases s.socket <;> rfl

lemma socketClose_transmitted (s : TransportState) :
    (socketClose s).transmitted = s.transmitted := by
  unfold socketClose; cases s.socket <;> rfl

lemma socketClose_dispatched (s : TransportState) :
    (socketClose s).dispatched = s.dispatched := by
  unfold socketClose; cases s.socket <;> rfl

lemma socketClose_pendingRetries (s : TransportState) :
    (socketClose s).pendingRetries = s.pendingRetries := by
  unfold socketClose; cases s.socket <;> rfl

lemma socketOpen_of_openPending (s : TransportState) (p : Socket)
    (h : s.nextSocket = some p) (hp : p.readyState = 1) :
    socketOpen s
      = { s with
            socket := some p, nextSocket := none, queue := [],
            subscriptions := s.optsSubscriptions.getD [],
            transmitted := s.transmitted ++ s.queue ++ s.subscriptions.map subEnvelope } := by
  cases s with
  | mk so ns q su os tr di pr =>
      cases p with
      | mk rs oc =>
          simp only at h hp
          subst hp
          subst h
          cases so with
          | none =>
              simp [socketOpen, socketClose, queueSubscriptions_eq, pushQueue_eq,
                isOpen, List.append_assoc]
          | some a =>
              simp [socketOpen, socketClose, queueSubscriptions_eq, pushQueue_eq,
                isOpen, List.append_assoc]

/-! ### Quiescence: states from which the transport generates no new
connection attempt on its own -/

/-- No pending connection handle, no scheduled retry timer, and any active
socket has the silenced close handler and a non-established connection. -/
def Quiescent (s : TransportState) : Prop :=
  s.nextSocket = none ∧ s.pendingRetries = 0 ∧
    ∀ sock, s.socket = some sock → sock.onclose = .noop ∧ sock.readyState ≠ 1

lemma quiescent_step (s : TransportState) (e : Event) (s' : TransportState)
    (hq : Quiescent s) (ha : IsAutoEvent e) (hstep : step s e = some s') :
    Quiescent s' := by
  obtain ⟨hn, hr, hs⟩ := hq
  cases e with
  | callOpen => simp [IsAutoEvent] at ha
  | callClose => simp [IsAutoEvent] at ha
  | callSend message topic silent => simp [IsAutoEvent] at ha
  | callSubscribe topic => simp [IsAutoEvent] at ha
  | netOnline => simp [IsAutoEvent] at ha
  | pendingOpen => simp [step, hn] at hstep
  | pendingClose => simp [step, hn] at hstep
  | retryFire => simp [step, hr] at hstep
  | activeClose =>
      cases hso : s.socket with
      | none => simp [step, hso] at hstep
      | some sock =>
          obtain ⟨hoc, _⟩ := hs sock hso
          simp [step, hso, hoc] at hstep
          refine ⟨by simp [← hstep, hn], by simp [← hstep, hr], ?_⟩
          intro sock' h'
          rw [← hstep] at h'
          simp at h'
          rw [← h']
          exact ⟨rfl, by simp⟩
  | receive parsed =>
      cases hso : s.socket with
      | none => simp [step, hso] at hstep
      | some sock =>
          obtain ⟨_, hrs⟩ := hs sock hso
          have hb : (sock.readyState == 1) = false := by
            simpa using hrs
          simp [step, hso, hb] at hstep

lemma runTrace_quiescent (es : List Event) :
    ∀ s s' : TransportState, Quiescent s → (∀ e ∈ es, IsAutoEvent e) →
      runTrace s es = some s' → Quiescent s' := by
  induction es with
  | nil =>
      intro s s' hq _ hrun
      simp [runTrace] at hrun
      rw [← hrun]; exact hq
  | cons e es ih =>
      intro s s' hq hall hrun
      rw [runTrace] at hrun
      cases hstep : step s e with
      | none => rw [hstep] at hrun; simp at hrun
      | some s2 =>
          rw [hstep] at hrun
          exact ih s2 s' (quiescent_step s e s2 hq (hall e (by simp)) hstep)
            (fun x hx => hall x (by simp [hx])) hrun

lemma quiescent_socketClose (s : TransportState)
    (hn : s.nextSocket = none) (hr : s.pendingRetries = 0) :
    Quiescent (socketClose s) := by
  cases hso : s.socket with
  | none =>
      refine ⟨?_, ?_, ?_⟩
      · rw [socketClose_nextSocket]; exact hn
      · rw [socketClose_pendingRetries]; exact hr
      · intro sock h'
        simp [socketClose, hso] at h'
  | some sock =>
      refine ⟨?_, ?_, ?_⟩
      · rw [socketClose_nextSocket]; exact hn
      · rw [socketClose_pendingRetries]; exact hr
      · intro sock' h'
        simp [socketClose, hso] at h'
        rw [← h']
        exact ⟨rfl, by simp⟩

/-! ### Further projection lemmas used by the claim theorems -/

lemma pushQueue_optsSubscriptions (s : TransportState) :
    (pushQueue s).optsSubscriptions = s.optsSubscriptions := by
  rw [pushQueue_eq]; split <;> rfl

lemma queueSubscriptions_optsSubscriptions (s : TransportState) :
    (queueSubscriptions s).optsSubscriptions = s.optsSubscriptions := by
  rw [queueSubscriptions_eq]

lemma queueSubscriptions_iterate_opts (n : Nat) :
    ∀ s : TransportState,
      (queueSubscriptions^[n] s).optsSubscriptions = s.optsSubscriptions := by
  induction n with
  | zero => intro s; rfl
  | succ n ih =>
      intro s
      rw [Function.iterate_succ_apply, ih (queueSubscriptions s),
        queueSubscriptions_optsSubscriptions]

lemma socketOpen_optsSubscriptions (s : TransportState) :
    (socketOpen s).optsSubscriptions = s.optsSubscriptions := by
  simp [socketOpen, pushQueue_optsSubscriptions, queueSubscriptions_optsSubscriptions,
    socketClose_optsSubscriptions]

lemma socketReceive_optsSubscriptions (s : TransportState) (parsed : Option SocketMessage) :
    (socketReceive s parsed).optsSubscriptions = s.optsSubscriptions := by
  cases parsed with
  | none => rfl
  | some msg =>
      simp only [socketReceive]
      split <;> simp [socketSend_optsSubscriptions]

lemma socketCreate_optsSubscriptions (s : TransportState) :
    (socketCreate s).optsSubscriptions = s.optsSubscriptions := by
  rw [socketCreate_eq]

lemma step_optsSubscriptions (s : TransportState) (e : Event) (s' : TransportState)
    (h : step s e = some s') : s'.optsSubscriptions = s.optsSubscriptions := by
  cases e with
  | callOpen =>
      simp only [step, Option.some.injEq] at h
      rw [← h, socketCreate_optsSubscriptions]
  | netOnline =>
      simp only [step, Option.some.injEq] at h
      rw [← h, socketCreate_optsSubscriptions]
  | callClose =>
      simp only [step, Option.some.injEq] at h
      rw [← h, socketClose_optsSubscriptions]
  | callSend message topic silent =>
      simp only [step, send] at h
      cases hc : (!truthy topic || !isString topic) with
      | true => simp [hc] at h; rw [← h]
      | false => simp [hc] at h; rw [← h, socketSend_optsSubscriptions]
  | callSubscribe topic =>
      simp only [step, subscribe, Option.some.injEq] at h
      rw [← h, socketSend_optsSubscriptions]
  | pendingOpen =>
      cases hn : s.nextSocket with
      | none => simp [step, hn] at h
      | some p =>
          simp only [step, hn, Option.some.injEq] at h
          rw [← h, socketOpen_optsSubscriptions]
  | pendingClose =>
      cases hn : s.nextSocket with
      | none => simp [step, hn] at h
      | some p =>
          simp only [step, hn, Option.some.injEq] at h
          rw [← h]
  | activeClose =>
      cases hso : s.socket with
      | none => simp [step, hso] at h
      | some sock =>
          cases hoc : sock.onclose with
          | noop => simp only [step, hso, hoc, Option.some.injEq] at h; rw [← h]
          | retry => simp only [step, hso, hoc, Option.some.injEq] at h; rw [← h]
  | retryFire =>
      cases hp : s.pendingRetries with
      | zero => simp [step, hp] at h
      | succ n =>
          simp only [step, hp, Option.some.injEq] at h
          rw [← h, socketCreate_optsSubscriptions]
  | receive parsed =>
      cases hso : s.socket with
      | none => simp [step, hso] at h
      | some sock =>
          cases hrs : (sock.readyState == 1) with
          | false => simp [step, hso, hrs] at h
          | true =>
              simp only [step, hso, hrs, if_true, Option.some.injEq] at h
              rw [← h, socketReceive_optsSubscriptions]

/-! ### Claim C1 (corrected): drain and the fate of re-enqueued envelopes -/

/-- C1 counterexample state: no connection at all (so transmit-or-queue hits
its queue-and-create branch for every envelope) and one queued envelope. -/
def c1Msg : SocketMessage :=
  { topic := .str "t1", type := "pub", payload := "hello", silent := false }

def c1State : TransportState :=
  { socket := none, nextSocket := none, queue := [c1Msg], subscriptions := [],
    optsSubscriptions := none, transmitted := [], dispatched := [],
    pendingRetries := 0 }

/-- C1 counterexample: with no open connection and `c1Msg` queued, a drain
transmits nothing, yet afterwards the outbound queue is empty — the envelope
that was re-enqueued during the drain is NOT still present in the queue after
the drain completes; it is lost.  This refutes the claim that a drain during
a still-unstable connection re-enqueues affected messages without loss. -/
theorem c1_counterexample :
    c1State.queue = [c1Msg]
    ∧ isOpen c1State = false
    ∧ (pushQueue c1State).transmitted = []
    ∧ (pushQueue c1State).queue = [] :=
  ⟨rfl, rfl, rfl, rfl⟩

/-- C1 (amended): drain() iterates over the queue array it aliases and
transmits each envelope present at the start via transmit-or-queue, in
original FIFO order, then resets the live queue to empty.  When the
connection is open, every snapshotted envelope is transmitted in FIFO order;
when it is not, each envelope is re-enqueued into the same aliased array and
then discarded by the final reset — the queue is empty after every drain,
nothing is transmitted, and the envelopes are lost (a create() attempt is
still triggered when at least one envelope was processed). -/
theorem c1_drain_behavior : ∀ s : TransportState,
    (pushQueue s).queue = []
    ∧ (pushQueue s).transmitted = s.transmitted ++ (if isOpen s then s.queue else [])
    ∧ (pushQueue s).socket = s.socket
    ∧ (pushQueue s).nextSocket
        = (if isOpen s then s.nextSocket
           else if s.queue.isEmpty then s.nextSocket
           else some (s.nextSocket.getD pendingSocket)) := by
  intro s
  cases h : isOpen s <;> simp [pushQueue_eq, h]

/-! ### Claim C2 (corrected): what close() does and does not stop -/

def c2Opts : SocketTransportOptions :=
  { protocol := "wc", version := 1, url := .str "wss://bridge.example.org",
    subscriptions := none }

def c2Mid : TransportState :=
  { initState c2Opts with pendingRetries := 1 }

def c2End : TransportState :=
  { initState c2Opts with nextSocket := some pendingSocket }

/-- C2 counterexample: construct a transport, call open() (a pending
connection attempt starts), then call public close() while the attempt is
still in flight.  When the pending socket's connection then fails, its retry
handler — which close() never touched — schedules another automatic
`_socketCreate` (pendingRetries becomes 1), and when that timer fires a new
pending connection exists, all without any subsequent open().  So close()
does not terminate the retry loop in a state with a pending attempt in
flight. -/
theorem c2_counterexample :
    mkTransport c2Opts = .ok (initState c2Opts)
    ∧ runTrace (initState c2Opts)
        [Event.callOpen, Event.callClose, Event.pendingClose] = some c2Mid
    ∧ c2Mid.pendingRetries = 1
    ∧ runTrace (initState c2Opts)
        [Event.callOpen, Event.callClose, Event.pendingClose, Event.retryFire]
        = some c2End
    ∧ c2End.nextSocket = some pendingSocket :=
  ⟨rfl, rfl, rfl, rfl, rfl⟩

/-- C2 (amended): close() silences only the active connection: after public
close() in a state with no pending connection attempt in flight and no
already-scheduled retry timer, no sequence of transport-generated events
(socket callbacks, timer firings) ever schedules another automatic connection
attempt — the pending slot stays empty and no retry timer is ever scheduled —
until a subsequent explicit open(), send/subscribe, or network-online
callback.  When a pending attempt or a scheduled timer is outstanding at the
moment of close(), the retry loop can continue (see the counterexample). -/
theorem c2_close_quiescent :
    ∀ (s : TransportState) (es : List Event) (s' : TransportState),
      s.nextSocket = none → s.pendingRetries = 0 →
      (∀ e ∈ es, IsAutoEvent e) →
      runTrace (socketClose s) es = some s' →
      s'.nextSocket = none ∧ s'.pendingRetries = 0 := by
  intro s es s' hn hr hall hrun
  have hq := runTrace_quiescent es (socketClose s) s'
    (quiescent_socketClose s hn hr) hall hrun
  exact ⟨hq.1, hq.2.1⟩

def c2WState : TransportState :=
  { socket := some { readyState := 1, onclose := .retry }, nextSocket := none,
    queue := [], subscriptions := [], optsSubscriptions := none,
    transmitted := [], dispatched := [], pendingRetries := 0 }

def c2WEnd : TransportState :=
  { c2WState with socket := some { readyState := 3, onclose := .noop } }

/-- C2 witness: a transport with an open active connection, no pending
attempt and no scheduled timer is closed; the active socket's close event
then fires, and no retry is scheduled. -/
theorem c2_close_quiescent_witness :
    c2WState.nextSocket = none
    ∧ c2WState.pendingRetries = 0
    ∧ runTrace (socketClose c2WState) [Event.activeClose] = some c2WEnd
    ∧ c2WEnd.nextSocket = none ∧ c2WEnd.pendingRetries = 0 :=
  ⟨rfl, rfl, rfl,
    c2_close_quiescent c2WState [Event.activeClose] c2WEnd rfl rfl
      (by intro e he; simp at he; rw [he]; trivial) rfl⟩

/-! ### Claim C3: exactly one acknowledge per successfully parsed inbound
event -/

/-- C3: for every inbound raw event whose data parses successfully, the
receive path routes exactly one acknowledge envelope `{topic := the parsed
envelope's topic, type := "ack", payload := "", silent := true}` — transmitted
when the connection is open, queued otherwise — regardless of the parsed
envelope's silent flag or payload; an event whose data fails to parse leaves
the transport unchanged: no acknowledge and no dispatch. -/
theorem c3_ack_exactly_once : ∀ (s : TransportState) (msg : SocketMessage),
    socketReceive s none = s
    ∧ (socketReceive s (some msg)).transmitted
        = s.transmitted
          ++ (if isOpen s then
                [{ topic := msg.topic, type := "ack", payload := "", silent := true }]
              else [])
    ∧ (socketReceive s (some msg)).queue
        = s.queue
          ++ (if isOpen s then []
              else
                [{ topic := msg.topic, type := "ack", payload := "", silent := true }])
    ∧ (socketReceive s (some msg)).dispatched
        = s.dispatched ++ (if isOpen s then [msg] else []) := by
  intro s msg
  cases h : isOpen s <;>
    simp [socketReceive, socketSend_transmitted, socketSend_queue,
      socketSend_dispatched, isOpen_socketSend, h]

/-! ### Claim C4: subscription replay pushes the list in order and resets it
to the configured list -/

/-- C4: on every reconnection, the replayer appends exactly one subscribe
envelope (empty payload, silent) per topic of the current subscription list
onto the outbound queue, in list order, and then resets the live list to the
configured `opts.subscriptions || []`; since no transport operation ever
changes the configured list, each of N successive replays replays the same
configured set — the list does not accumulate. -/
theorem c4_replay_subscriptions : ∀ (s : TransportState) (n : Nat),
    (queueSubscriptions s).queue = s.queue ++ s.subscriptions.map subEnvelope
    ∧ (queueSubscriptions s).subscriptions = s.optsSubscriptions.getD []
    ∧ (queueSubscriptions^[n + 1] s).subscriptions = s.optsSubscriptions.getD []
    ∧ (∀ e s', step s e = some s' →
        s'.optsSubscriptions = s.optsSubscriptions) := by
  intro s n
  refine ⟨by rw [queueSubscriptions_eq], by rw [queueSubscriptions_eq], ?_,
    fun e s' h => step_optsSubscriptions s e s' h⟩
  rw [Function.iterate_succ_apply']
  simp [queueSubscriptions_eq, queueSubscriptions_iterate_opts n s]

def c4Ex : TransportState :=
  { socket := none, nextSocket := none, queue := [], subscriptions := ["room1"],
    optsSubscriptions := some ["room1"], transmitted := [], dispatched := [],
    pendingRetries := 0 }

/-- C4 witness: one configured topic is replayed onto the queue, the live
list after a replay is the configured list, and a step preserves the
configured list. -/
theorem c4_replay_subscriptions_witness :
    (queueSubscriptions c4Ex).queue = [subEnvelope "room1"]
    ∧ (queueSubscriptions^[1] c4Ex).subscriptions = ["room1"]
    ∧ (socketClose c4Ex).optsSubscriptions = some ["room1"] :=
  ⟨(c4_replay_subscriptions c4Ex 0).1,
   (c4_replay_subscriptions c4Ex 0).2.2.1,
   (c4_replay_subscriptions c4Ex 0).2.2.2 Event.callClose (socketClose c4Ex) rfl⟩

/-! ### Claim C5: at most one pending connection handle -/

/-- C5: create() is a no-op — it changes no state and opens no connection —
whenever a pending connection already exists, and every event step of the
transport leaves at most one pending connection handle. -/
theorem c5_single_pending : ∀ s : TransportState,
    (s.nextSocket.isSome = true → socketCreate s = s)
    ∧ pendingCount s ≤ 1
    ∧ (∀ e s', step s e = some s' → pendingCount s' ≤ 1) := by
  intro s
  refine ⟨?_, ?_, ?_⟩
  · intro h
    cases hn : s.nextSocket with
    | none => rw [hn] at h; simp at h
    | some p => simp [socketCreate, hn]
  · unfold pendingCount; cases s.nextSocket <;> simp
  · intro e s' _; unfold pendingCount; cases s'.nextSocket <;> simp

def c5Ex : TransportState :=
  { socket := none, nextSocket := some pendingSocket, queue := [],
    subscriptions := [], optsSubscriptions := none, transmitted := [],
    dispatched := [], pendingRetries := 0 }

/-- C5 witness: with a pending connection in flight, create() changes
nothing, and the state after an open() call still holds at most one pending
handle. -/
theorem c5_single_pending_witness :
    socketCreate c5Ex = c5Ex ∧ pendingCount (socketCreate c5Ex) ≤ 1 :=
  ⟨(c5_single_pending c5Ex).1 rfl,
   (c5_single_pending c5Ex).2.2 Event.callOpen (socketCreate c5Ex) rfl⟩

/-! ### Claim C6: promotion order on pending-connection open -/

/-- C6: when the pending connection fires its open event, the transport (1)
replaces the previously active connection's close handler with a no-op and
closes it — so firing that connection's close afterwards changes nothing and
schedules no retry; (2) promotes the pending socket to active and clears the
pending slot; (3) replays subscriptions onto the queue; then (4) drains the
queue — so the resulting transmissions are the previously queued envelopes
followed by the replayed subscribe envelopes, and the queue ends empty. -/
theorem c6_promote_order :
    ∀ (s : TransportState) (p : Socket) (s' : TransportState),
      s.nextSocket = some p → step s Event.pendingOpen = some s' →
      s'.socket = some { p with readyState := 1 }
      ∧ s'.nextSocket = none
      ∧ s'.queue = []
      ∧ s'.subscriptions = s.optsSubscriptions.getD []
      ∧ s'.transmitted = s.transmitted ++ s.queue ++ s.subscriptions.map subEnvelope
      ∧ s'.dispatched = s.dispatched
      ∧ (∀ sock, s.socket = some sock →
          (socketClose s).socket
            = some { sock with onclose := CloseHandler.noop, readyState := 3 }
          ∧ step (socketClose s) Event.activeClose = some (socketClose s)) := by
  intro s p s' h hstep
  simp only [step, h, Option.some.injEq] at hstep
  rw [socketOpen_of_openPending _ { p with readyState := 1 } rfl rfl] at hstep
  subst hstep
  refine ⟨rfl, rfl, rfl, rfl, rfl, rfl, ?_⟩
  intro sock hs
  constructor
  · simp [socketClose, hs]
  · simp [step, socketClose, hs]

def c6Msg : SocketMessage :=
  { topic := .str "t6", type := "pub", payload := "m6", silent := false }

def c6Ex : TransportState :=
  { socket := some { readyState := 1, onclose := .retry },
    nextSocket := some { readyState := 0, onclose := .retry },
    queue := [c6Msg], subscriptions := ["s6"], optsSubscriptions := some ["s6"],
    transmitted := [], dispatched := [], pendingRetries := 0 }

def c6After : TransportState :=
  { c6Ex with
      socket := some { readyState := 1, onclose := .retry },
      nextSocket := none, queue := [],
      transmitted := [c6Msg, subEnvelope "s6"] }

/-- C6 witness: a transport with an active connection, a pending attempt,
one queued envelope and one subscription promotes the pending socket; the
queued envelope is transmitted before the replayed subscribe envelope, and
the silently closed old connection's close event is inert. -/
theorem c6_promote_order_witness :
    step c6Ex Event.pendingOpen = some c6After
    ∧ c6After.socket = some { readyState := 1, onclose := CloseHandler.retry }
    ∧ c6After.transmitted = [c6Msg, subEnvelope "s6"]
    ∧ (socketClose c6Ex).socket
        = some { readyState := 3, onclose := CloseHandler.noop }
    ∧ step (socketClose c6Ex) Event.activeClose = some (socketClose c6Ex) :=
  ⟨rfl,
   (c6_promote_order c6Ex { readyState := 0, onclose := .retry } c6After rfl rfl).1,
   (c6_promote_order c6Ex { readyState := 0, onclose := .retry } c6After rfl
     rfl).2.2.2.2.1,
   ((c6_promote_order c6Ex { readyState := 0, onclose := .retry } c6After rfl
     rfl).2.2.2.2.2.2 { readyState := 1, onclose := .retry } rfl).1,
   ((c6_promote_order c6Ex { readyState := 0, onclose := .retry } c6After rfl
     rfl).2.2.2.2.2.2 { readyState := 1, onclose := .retry } rfl).2⟩

/-! ### Claim C7: transmit-or-queue -/

/-- C7: transmit-or-queue transmits the envelope immediately and leaves the
queue (and the pending slot) unchanged when the active connection is open;
otherwise it transmits nothing, appends the envelope to the outbound queue,
and triggers a create() attempt (the pending slot is occupied afterwards, by
the existing pending socket if there was one, by a fresh one otherwise); the
active socket is never changed. -/
theorem c7_transmit_or_queue : ∀ (s : TransportState) (m : SocketMessage),
    (socketSend s m).transmitted = s.transmitted ++ (if isOpen s then [m] else [])
    ∧ (socketSend s m).queue = s.queue ++ (if isOpen s then [] else [m])
    ∧ (socketSend s m).socket = s.socket
    ∧ (socketSend s m).nextSocket
        = (if isOpen s then s.nextSocket
           else some (s.nextSocket.getD pendingSocket)) := by
  intro s m
  exact ⟨socketSend_transmitted s m, socketSend_queue s m, socketSend_socket s m,
    socketSend_nextSocket s m⟩

/-! ### Claim C8: send validates its topic -/

/-- C8: send(message, topic, silent) throws the invalid-argument error
`"Missing or invalid topic field"` whenever the topic is falsy (missing, i.e.
undefined, among others) or not a string, and the transport state is then
unchanged — the queue is not mutated and no connection attempt starts; when
the topic is a valid (per the code's check: truthy, hence nonempty) string,
send routes the publish envelope `{topic, type := "pub", payload := message,
silent := !!silent}` through transmit-or-queue. -/
theorem c8_send_validation :
    ∀ (s : TransportState) (message : String) (topic : JSVal)
      (silent : Option Bool),
      ((truthy topic = false ∨ isString topic = false) →
        send s message topic silent = .error "Missing or invalid topic field"
        ∧ step s (Event.callSend message topic silent) = some s)
      ∧ (∀ t : String, topic = .str t → t ≠ "" →
        send s message topic silent
          = .ok (socketSend s
              { topic := topic, type := "pub", payload := message,
                silent := silent.getD false })) := by
  intro s message topic silent
  constructor
  · intro h
    have hc : (!truthy topic || !isString topic) = true := by
      cases h with
      | inl h => simp [h]
      | inr h => simp [h]
    exact ⟨by simp [send, hc], by simp [step, send, hc]⟩
  · intro t ht hne
    subst ht
    simp [send, truthy, isString, hne]

def c8Ex : TransportState :=
  { socket := none, nextSocket := none, queue := [], subscriptions := [],
    optsSubscriptions := none, transmitted := [], dispatched := [],
    pendingRetries := 0 }

/-- C8 witness: send with an omitted topic throws and leaves the state
unchanged; send with the topic "topic1" routes the publish envelope. -/
theorem c8_send_validation_witness :
    (send c8Ex "hi" JSVal.undefined none = .error "Missing or invalid topic field"
     ∧ step c8Ex (Event.callSend "hi" JSVal.undefined none) = some c8Ex)
    ∧ send c8Ex "hi" (JSVal.str "topic1") none
        = .ok (socketSend c8Ex
            { topic := JSVal.str "topic1", type := "pub", payload := "hi",
              silent := false }) :=
  ⟨(c8_send_validation c8Ex "hi" JSVal.undefined none).1 (Or.inl rfl),
   (c8_send_validation c8Ex "hi" (JSVal.str "topic1") none).2 "topic1" rfl
     (by decide)⟩

/-! ### Claim C9: the constructor validates its url -/

/-- C9: constructing a transport whose url is missing/undefined or not a
string throws `"Missing or invalid WebSocket url"` immediately — no usable
object is produced; with a valid (truthy, hence nonempty) string url the
constructor succeeds, throws nothing, and leaves the initial field state. -/
theorem c9_ctor_validation : ∀ opts : SocketTransportOptions,
    ((opts.url = JSVal.undefined ∨ isString opts.url = false) →
      mkTransport opts = .error "Missing or invalid WebSocket url")
    ∧ (∀ u : String, opts.url = JSVal.str u → u ≠ "" →
      mkTransport opts = .ok (initState opts)) := by
  intro opts
  constructor
  · intro h
    have hc : (!truthy opts.url || !isString opts.url) = true := by
      cases h with
      | inl h => simp [h, truthy, isString]
      | inr h => simp [h]
    simp [mkTransport, hc]
  · intro u hu hne
    have hc : (!truthy opts.url || !isString opts.url) = false := by
      rw [hu]; simp [truthy, isString, hne]
    simp [mkTransport, hc]

def c9BadOpts : SocketTransportOptions :=
  { protocol := "wc", version := 1, url := JSVal.undefined,
    subscriptions := none }

def c9GoodOpts : SocketTransportOptions :=
  { protocol := "wc", version := 1, url := JSVal.str "wss://relay.example.net",
    subscriptions := some ["chan"] }

/-- C9 witness: `url := undefined` throws; a nonempty string url succeeds. -/
theorem c9_ctor_validation_witness :
    mkTransport c9BadOpts = .error "Missing or invalid WebSocket url"
    ∧ mkTransport c9GoodOpts = .ok (initState c9GoodOpts) :=
  ⟨(c9_ctor_validation c9BadOpts).1 (Or.inl rfl),
   (c9_ctor_validation c9GoodOpts).2 "wss://relay.example.net" rfl (by decide)⟩

/-! ### Claim C10: subscribe performs no validation -/

/-- C10: subscribe never throws for any topic value — undefined, the empty
string, a number, anything — and always routes the subscribe envelope
`{topic, type := "sub", payload := "", silent := true}` through
transmit-or-queue: the envelope is transmitted when the connection is open
and queued otherwise. -/
theorem c10_subscribe_no_validation : ∀ (s : TransportState) (topic : JSVal),
    subscribe s topic
      = .ok (socketSend s
          { topic := topic, type := "sub", payload := "", silent := true })
    ∧ (socketSend s
        { topic := topic, type := "sub", payload := "", silent := true }).transmitted
        = s.transmitted
          ++ (if isOpen s then
                [{ topic := topic, type := "sub", payload := "", silent := true }]
              else [])
    ∧ (socketSend s
        { topic := topic, type := "sub", payload := "", silent := true }).queue
        = s.queue
          ++ (if isOpen s then []
              else
                [{ topic := topic, type := "sub", payload := "", silent := true }]) := by
  intro s topic
  exact ⟨rfl, socketSend_transmitted s _, socketSend_queue s _⟩

end SocketTransport
